import Mathlib

/-!
# Verification of `OpenALStream::SoundLoop`

Shallow embedding of the streaming loop in
`Source/Core/AudioCommon/OpenALStream.cpp`.  The body of the
`while (m_run_thread.IsSet())` loop (lines 224-367) is embedded as a pure step
function `cycleStep` on an explicit state (`LoopState`), parameterized by what
the loop reads from its collaborators during that iteration (`CycleEnv`), and
emitting the observable events of the iteration (`CycleOut`).  The loop itself is
`runLoop`, a fold of `cycleStep` over a finite observation trace that also
records the value read by each `m_run_thread.IsSet()` check.

Float samples are modelled as rationals: every float value arising in the
embedded computations (int16 values divided by `2 ^ 15`, and their products
with `2 ^ 15`) is exactly representable in binary floating point, so the
rational model computes the same values the C code does.  The external
soundtouch time-stretch engine is modelled by `STState`/`applyTempo`; the
output of the external DPL2 decoder is an input of each cycle (`CycleEnv.dpl2Out`).
-/

namespace OpenALStream

/-- One stereo frame of normalized float samples (left, right). -/
abbrev Frame := ℚ × ℚ

/-- The OpenAL buffer formats `SoundLoop` submits: `AL_FORMAT_51CHN32`,
`AL_FORMAT_51CHN16`, `AL_FORMAT_STEREO_FLOAT32`, `AL_FORMAT_STEREO16`. -/
inductive ALFormat
  | surround32
  | surround16
  | stereo32
  | stereo16
deriving DecidableEq

/-- The calls `SoundLoop` makes into the soundtouch engine each iteration. -/
inductive EngineCall
  | putSamples (n : Nat)
  | setTempo (r : ℚ)
  | clear
  | receiveSamples (n : Nat)
deriving DecidableEq

/-- The `AL_SOURCE_STATE` values the loop can observe at line 360. -/
inductive SourceState
  | playing
  | stopped
  | paused
  | initial
deriving DecidableEq

/-- State of the external soundtouch engine: the tempo last applied with
`setTempo` and the frames fed with `putSamples` but not yet drained.  The
engine is an external collaborator; this is a deterministic model of its
interface (`putSamples` appends, `setTempo` stores, `clear` flushes the
history, `receiveSamples` drains tempo-adjusted output, see `applyTempo`). -/
structure STState where
  tempo : ℚ
  pending : List Frame
deriving DecidableEq

/-- Model of tempo adjustment: draining at tempo `t` consumes input `t` times
as fast as it produces output, so `n` pending frames yield `⌊n / t⌋` output
frames, output frame `i` taken at input position `⌊i * t⌋`.  At tempo 1 this
is the identity (`applyTempo_one`). -/
def applyTempo (t : ℚ) (xs : List Frame) : List Frame :=
  (List.range ⌊(xs.length : ℚ) / t⌋₊).map
    fun i : ℕ => xs.getD ⌊(i : ℚ) * t⌋₊ (0, 0)

/-- Truncation of a rational toward zero, as a C float-to-integer cast. -/
def ratTrunc (x : ℚ) : ℤ := if 0 ≤ x then ⌊x⌋ else ⌈x⌉

/-- Line 264: `dest[i] = (float)realtimeBuffer[i] / (1 << 15)`. -/
def shortToFloat (n : ℤ) : ℚ := (n : ℚ) / 2 ^ 15

/-- Lines 314 and 347: `(short)((float)sampleBuffer[i] * (1 << 15))` —
multiply by `2 ^ 15` and truncate; no clamping to the int16 range. -/
def floatToShort (x : ℚ) : ℤ := ratTrunc (x * 2 ^ 15)

/-- Both int16 fallback paths convert their float array elementwise by
`floatToShort` (lines 313-314 for surround, 346-347 for stereo). -/
def encodeInt16 (xs : List ℚ) : List ℤ := xs.map floatToShort

/-- The flat interleaved layout of `sampleBuffer`: `nSamples * STEREO_CHANNELS`
floats, frame `i` at positions `2 * i` and `2 * i + 1`. -/
def interleave (xs : List Frame) : List ℚ := (xs.map (fun p => [p.1, p.2])).flatten

/-- Lines 300-303: `dpl2[i * SURROUND_CHANNELS + 3 /*sub/lfe*/] = 0.0f` on the
flattened 6-channel decoder output (SURROUND_CHANNELS = 6). -/
def zeroLFE (xs : List ℚ) : List ℚ :=
  xs.enum.map fun p => if p.1 % 6 = 3 then 0 else p.2

/-- The per-session mutable state of `SoundLoop`: the two capability flags
(lines 171-192), the ring bookkeeping `numBuffersQueued` and `nextBuffer`
(lines 211-212), and the soundtouch engine state. -/
structure LoopState where
  surround_capable : Bool
  float32_capable : Bool
  numBuffersQueued : Nat
  nextBuffer : Nat
  st : STState
deriving DecidableEq

/-- What one iteration reads from the collaborators of the loop: the device
`AL_BUFFERS_PROCESSED` count (line 228), the int16 frames the mixer returns
(line 259), the two `GetCurrentSpeed` readings — before and after
`RequestRefreshInfo` (lines 268-272), the flattened
6-channel output (line 294), which formats the device rejects with
`AL_INVALID_ENUM` on `alBufferData`, and the `AL_SOURCE_STATE` report
(line 360). -/
structure CycleEnv where
  numBuffersProcessed : Nat
  mixedFrames : List (ℤ × ℤ)
  rate1 : ℚ
  rate2 : ℚ
  dpl2Out : List ℚ
  writeRejected : ALFormat → Bool
  sourceState : SourceState

/-- The observable events of one loop iteration. -/
structure CycleOut where
  waited : Bool
  ingested : List Frame
  drained : List Frame
  engineCalls : List EngineCall
  format : Option ALFormat
  encoded16 : Option (List ℤ)
  writeChecked : Bool
  queued : Bool
  resumed : Bool
deriving DecidableEq

/-- Lines 268-273: `rate = GetCurrentSpeed(); if (rate <= 0) {
RequestRefreshInfo(); rate = GetCurrentSpeed(); }`. -/
def effectiveRate (env : CycleEnv) : ℚ :=
  if env.rate1 ≤ 0 then env.rate2 else env.rate1

/-- Lines 277-284: `if (rate > 0.10) { soundTouch.setTempo(rate);
if (rate > 10) { soundTouch.clear(); } }`.  Returns the engine state after
the block and the engine calls it issued. -/
def tempoStep (rate : ℚ) (st : STState) : STState × List EngineCall :=
  if 1 / 10 < rate then
    if 10 < rate then
      (⟨rate, []⟩, [EngineCall.setTempo rate, EngineCall.clear])
    else
      (⟨rate, st.pending⟩, [EngineCall.setTempo rate])
  else (st, [])

/-- Lines 255-256: `minSamples = surround_capable ? 240 : 0` — DPL2 accepts
240 samples minimum (FWRDURATION). -/
def minSamplesFor (surround : Bool) : Nat := if surround then 240 else 0

/-- The format the encode step (lines 291-352) writes under the current
capability flags, in its fidelity preference order. -/
def chosenFormat (surround float32 : Bool) : ALFormat :=
  if surround then (if float32 then ALFormat.surround32 else ALFormat.surround16)
  else (if float32 then ALFormat.stereo32 else ALFormat.stereo16)

/-- Fidelity rank of the four encodings, following the preference order of the
encode step: surround float32, surround int16, stereo float32, stereo int16. -/
def fidelity : ALFormat → Nat
  | ALFormat.surround32 => 3
  | ALFormat.surround16 => 2
  | ALFormat.stereo32 => 1
  | ALFormat.stereo16 => 0

/-- Lines 262-264: `dest[i] = (float)realtimeBuffer[i] / (1 << 15)` applied to
the frames the mixer returned. -/
def destOf (env : CycleEnv) : List Frame :=
  env.mixedFrames.map fun p => (shortToFloat p.1, shortToFloat p.2)

/-- Engine state after `soundTouch.putSamples(dest, numSamples)` (line 266). -/
def stPut (s : LoopState) (env : CycleEnv) : STState :=
  ⟨s.st.tempo, s.st.pending ++ destOf env⟩

/-- Engine state after the tempo block (lines 268-284), paired with the engine
calls that block issued. -/
def stTempo (s : LoopState) (env : CycleEnv) : STState × List EngineCall :=
  tempoStep (effectiveRate env) (stPut s env)

/-- Line 286: the `nSamples` frames `soundTouch.receiveSamples` returns. -/
def drainedOf (s : LoopState) (env : CycleEnv) : List Frame :=
  applyTempo (stTempo s env).1.tempo (stTempo s env).1.pending

/-- All engine calls the iteration makes, in order: `putSamples`, the tempo
calls of that block, `receiveSamples`. -/
def callsOf (s : LoopState) (env : CycleEnv) : List EngineCall :=
  EngineCall.putSamples (destOf env).length ::
    ((stTempo s env).2 ++ [EngineCall.receiveSamples (drainedOf s env).length])

/-- Engine state at the end of a non-waiting iteration: `receiveSamples` has
drained the tempo-adjusted output, so nothing is pending. -/
def stFinal (s : LoopState) (env : CycleEnv) : STState := ⟨(stTempo s env).1.tempo, []⟩

/-- Lines 228-233: all `numBuffers` slots queued and none processed —
`soundSyncEvent.Wait(); continue;`.  Nothing else happens this iteration. -/
def waitResult (s : LoopState) : LoopState × CycleOut :=
  (s, ⟨true, [], [], [], none, none, false, false, false⟩)

/-- Lines 288-289: `if (nSamples <= minSamples) continue;` — the processed
buffers were unqueued (lines 236-243) and the engine was fed and drained, but
no buffer is encoded, queued or resumed this iteration. -/
def skipResult (s : LoopState) (env : CycleEnv) : LoopState × CycleOut :=
  (⟨s.surround_capable, s.float32_capable,
    s.numBuffersQueued - env.numBuffersProcessed, s.nextBuffer, stFinal s env⟩,
   ⟨false, destOf env, drainedOf s env, callsOf s env, none, none, false, false, false⟩)

/-- Lines 291-366: the encode-and-submit tail of the iteration.
* The format follows the capability flags (`chosenFormat`).
* The surround path checks `alGetError` after `alBufferData` and clears
  `surround_capable` on `AL_INVALID_ENUM` (lines 320-327); the stereo float32
  path checks and clears `float32_capable` (lines 336-340); the stereo int16
  path writes without any error check (lines 344-350).
* Lines 354-358: `alSourceQueueBuffers` runs unconditionally once this tail is
  reached — also when the `alBufferData` write was just rejected — then
  `numBuffersQueued++` and `nextBuffer = (nextBuffer + 1) % numBuffers`.
* Lines 360-366: read `AL_SOURCE_STATE`; `alSourcePlay` iff it is not
  `AL_PLAYING`. -/
def submitResult (numBuffers : Nat) (s : LoopState) (env : CycleEnv) :
    LoopState × CycleOut :=
  let fmt := chosenFormat s.surround_capable s.float32_capable
  let rejected := env.writeRejected fmt
  let surround2 := s.surround_capable && !rejected
  let float2 :=
    if !s.surround_capable && (s.float32_capable && rejected) then false
    else s.float32_capable
  let checked := s.surround_capable || s.float32_capable
  let enc16 : Option (List ℤ) :=
    if fmt = ALFormat.surround16 then some (encodeInt16 (zeroLFE env.dpl2Out))
    else if fmt = ALFormat.stereo16 then some (encodeInt16 (interleave (drainedOf s env)))
    else none
  (⟨surround2, float2, s.numBuffersQueued - env.numBuffersProcessed + 1,
    (s.nextBuffer + 1) % numBuffers, stFinal s env⟩,
   ⟨false, destOf env, drainedOf s env, callsOf s env, some fmt, enc16, checked, true,
    decide (env.sourceState ≠ SourceState.playing)⟩)

/-- One iteration of the `while (m_run_thread.IsSet())` body (lines 224-367):

* lines 228-233: read `AL_BUFFERS_PROCESSED`; if all `numBuffers` slots are
  queued and none processed, wait on `soundSyncEvent` and `continue`
  (`waitResult`);
* lines 236-243: unqueue the processed buffers, `numBuffersQueued -= processed`;
* lines 259-266: mix, convert each int16 sample to float (`destOf`),
  `soundTouch.putSamples`;
* lines 268-284: read the speed, re-querying once if `≤ 0`
  (`effectiveRate`), and apply the tempo policy (`tempoStep`);
* line 286: `soundTouch.receiveSamples` drains the output (`drainedOf`);
* lines 288-289: `if (nSamples <= minSamples) continue;` (`skipResult`);
* lines 291-366: encode, submit, queue, underrun recovery (`submitResult`). -/
def cycleStep (numBuffers : Nat) (s : LoopState) (env : CycleEnv) :
    LoopState × CycleOut :=
  if numBuffers = s.numBuffersQueued ∧ env.numBuffersProcessed = 0 then
    waitResult s
  else if (drainedOf s env).length ≤ minSamplesFor s.surround_capable then
    skipResult s env
  else
    submitResult numBuffers s env

/-- The loop over a finite observation trace.  Each trace element records the
value the `m_run_thread.IsSet()` check reads that iteration, and the
environment of that iteration.  Returns the state when observation ends (by the run
flag reading false, or the trace running out) and, per executed iteration, the
state after it paired with its observable output. -/
def runLoop (numBuffers : Nat) :
    LoopState → List (Bool × CycleEnv) → LoopState × List (LoopState × CycleOut)
  | s, [] => (s, [])
  | s, e :: tr =>
    if e.1 then
      let step := cycleStep numBuffers s e.2
      let rest := runLoop numBuffers step.1 tr
      (rest.1, (step.1, step.2) :: rest.2)
    else (s, [])

/-- Device accounting along a trace: OpenAL never reports more processed
buffers than the source has queued (`AL_BUFFERS_PROCESSED` counts buffers of
the queue of the source itself).  This is a property of the device API, not of the
loop; it is the hypothesis under which the ring bound is proved. -/
def deviceOK (numBuffers : Nat) : LoopState → List (Bool × CycleEnv) → Bool
  | _, [] => true
  | s, e :: tr =>
    if e.1 then
      decide (e.2.numBuffersProcessed ≤ s.numBuffersQueued) &&
        deviceOK numBuffers (cycleStep numBuffers s e.2).1 tr
    else true

/-! ## Concrete session states and cycle environments

Small concrete instances used by the counterexamples and by the witness
instantiations of the theorems below. -/

/-- A stereo session (surround off, float32 on) with an idle engine. -/
def c1s : LoopState := ⟨false, true, 0, 0, ⟨1, []⟩⟩

/-- One mixed frame, speed 1, and a device that rejects every format. -/
def c1env : CycleEnv := ⟨0, [(16384, 16384)], 1, 1, [], fun _ => true, SourceState.playing⟩

/-- A stereo session with an idle engine at tempo 1. -/
def c2s : LoopState := ⟨false, true, 0, 0, ⟨1, []⟩⟩

/-- Four mixed frames at speed reading 2 (tempo 2 gets applied). -/
def c2envA : CycleEnv :=
  ⟨0, [(8192, 8192), (8192, 8192), (8192, 8192), (8192, 8192)], 2, 2, [],
   fun _ => false, SourceState.playing⟩

/-- Four mixed frames at speed reading 1/20 (below the 0.10 gate). -/
def c2envB : CycleEnv :=
  ⟨0, [(8192, 8192), (8192, 8192), (8192, 8192), (8192, 8192)], 1 / 20, 1 / 20, [],
   fun _ => false, SourceState.playing⟩

/-- A surround session whose engine holds exactly 240 frames at tempo 1. -/
def c3s : LoopState := ⟨true, true, 0, 0, ⟨1, List.replicate 240 ((0 : ℚ), (0 : ℚ))⟩⟩

/-- No new frames, speed 1: the drain returns exactly the 240 pending frames. -/
def c3env : CycleEnv := ⟨0, [], 1, 1, [], fun _ => false, SourceState.playing⟩

/-- A stereo session with an idle engine. -/
def c4s : LoopState := ⟨false, true, 0, 0, ⟨1, []⟩⟩

/-- One mixed frame at speed reading 12 (above the reset threshold 10). -/
def c4env : CycleEnv := ⟨0, [(8192, 8192)], 12, 12, [], fun _ => false, SourceState.playing⟩

/-- A stereo session with nothing queued. -/
def c6s : LoopState := ⟨false, true, 0, 0, ⟨1, []⟩⟩

/-- One mixed frame at speed 1 on a healthy device. -/
def c6env : CycleEnv := ⟨0, [(8192, 8192)], 1, 1, [], fun _ => false, SourceState.playing⟩

/-- A fully downgraded session: surround and float32 both off. -/
def c10s : LoopState := ⟨false, false, 0, 0, ⟨1, []⟩⟩

/-- One mixed frame at speed 1. -/
def c10env : CycleEnv := ⟨0, [(8192, 8192)], 1, 1, [], fun _ => false, SourceState.playing⟩

/-! ## General lemmas about the embedded step -/

/-- At tempo 1 the engine model is a pass-through. -/
theorem applyTempo_one (xs : List Frame) : applyTempo 1 xs = xs := by
  unfold applyTempo
  simp only [div_one, mul_one, Nat.floor_natCast]
  apply List.ext_getElem
  · simp
  · intro i h1 h2
    simp only [List.getElem_map, List.getElem_range]
    rw [List.getD_eq_getElem]

/-- Lines 280-283: a rate above 10 sets the tempo and then clears the engine. -/
theorem tempoStep_high (rate : ℚ) (st : STState) (h : 10 < rate) :
    tempoStep rate st = (⟨rate, []⟩, [EngineCall.setTempo rate, EngineCall.clear]) := by
  unfold tempoStep
  rw [if_pos (lt_trans (by norm_num) h), if_pos h]

/-- A rate in (0.10, 10] only sets the tempo. -/
theorem tempoStep_mid (rate : ℚ) (st : STState) (h1 : 1 / 10 < rate) (h2 : ¬10 < rate) :
    tempoStep rate st = (⟨rate, st.pending⟩, [EngineCall.setTempo rate]) := by
  unfold tempoStep
  rw [if_pos h1, if_neg h2]

/-- A rate at or below 0.10 leaves the engine untouched (line 277 gate). -/
theorem tempoStep_low (rate : ℚ) (st : STState) (h : ¬1 / 10 < rate) :
    tempoStep rate st = (st, []) := by
  unfold tempoStep
  rw [if_neg h]

/-- `stTempo` under the line 277 gate. -/
theorem stTempo_low (s : LoopState) (env : CycleEnv)
    (h : ¬1 / 10 < effectiveRate env) : stTempo s env = (stPut s env, []) := by
  unfold stTempo
  exact tempoStep_low _ _ h

/-- The wait branch of the iteration (lines 229-233). -/
theorem cycleStep_wait (N : Nat) (s : LoopState) (env : CycleEnv)
    (h : N = s.numBuffersQueued ∧ env.numBuffersProcessed = 0) :
    cycleStep N s env = waitResult s := by
  unfold cycleStep
  rw [if_pos h]

/-- The skip branch of the iteration (lines 288-289). -/
theorem cycleStep_skip (N : Nat) (s : LoopState) (env : CycleEnv)
    (h1 : ¬(N = s.numBuffersQueued ∧ env.numBuffersProcessed = 0))
    (h2 : (drainedOf s env).length ≤ minSamplesFor s.surround_capable) :
    cycleStep N s env = skipResult s env := by
  unfold cycleStep
  rw [if_neg h1, if_pos h2]

/-- The encode-and-submit branch of the iteration (lines 291-366). -/
theorem cycleStep_submit (N : Nat) (s : LoopState) (env : CycleEnv)
    (h1 : ¬(N = s.numBuffersQueued ∧ env.numBuffersProcessed = 0))
    (h2 : ¬(drainedOf s env).length ≤ minSamplesFor s.surround_capable) :
    cycleStep N s env = submitResult N s env := by
  unfold cycleStep
  rw [if_neg h1, if_neg h2]

/-- Every non-waiting iteration feeds and drains the engine the same way,
whether or not it goes on to encode. -/
theorem cycleStep_nowait (N : Nat) (s : LoopState) (env : CycleEnv)
    (hw : ¬(N = s.numBuffersQueued ∧ env.numBuffersProcessed = 0)) :
    (cycleStep N s env).1.st = stFinal s env ∧
    (cycleStep N s env).2.engineCalls = callsOf s env ∧
    (cycleStep N s env).2.drained = drainedOf s env ∧
    (cycleStep N s env).2.ingested = destOf env := by
  by_cases hm : (drainedOf s env).length ≤ minSamplesFor s.surround_capable
  · rw [cycleStep_skip N s env hw hm]; simp [skipResult]
  · rw [cycleStep_submit N s env hw hm]; simp [submitResult]

/-- No iteration sets `float32_capable` back to true. -/
theorem float32_mono_step (N : Nat) (s : LoopState) (env : CycleEnv)
    (h : s.float32_capable = false) :
    (cycleStep N s env).1.float32_capable = false := by
  by_cases hw : N = s.numBuffersQueued ∧ env.numBuffersProcessed = 0
  · rw [cycleStep_wait N s env hw]; simp [waitResult]; exact h
  · by_cases hm : (drainedOf s env).length ≤ minSamplesFor s.surround_capable
    · rw [cycleStep_skip N s env hw hm]; simp [skipResult]; exact h
    · rw [cycleStep_submit N s env hw hm]; simp [submitResult, h]

/-- No iteration sets `surround_capable` back to true. -/
theorem surround_mono_step (N : Nat) (s : LoopState) (env : CycleEnv)
    (h : s.surround_capable = false) :
    (cycleStep N s env).1.surround_capable = false := by
  by_cases hw : N = s.numBuffersQueued ∧ env.numBuffersProcessed = 0
  · rw [cycleStep_wait N s env hw]; simp [waitResult]; exact h
  · by_cases hm : (drainedOf s env).length ≤ minSamplesFor s.surround_capable
    · rw [cycleStep_skip N s env hw hm]; simp [skipResult]; exact h
    · rw [cycleStep_submit N s env hw hm]; simp [submitResult, h]

/-- Once false, `float32_capable` stays false along any run. -/
theorem float32_mono_run (N : Nat) (tr : List (Bool × CycleEnv)) :
    ∀ s : LoopState, s.float32_capable = false →
      ∀ p ∈ (runLoop N s tr).2, (p.1).float32_capable = false := by
  induction tr with
  | nil => intro s h p hp; simp [runLoop] at hp
  | cons e tr ih =>
    intro s h p hp
    by_cases he : e.1 = true
    · simp only [runLoop, he, if_true] at hp
      rcases List.mem_cons.mp hp with rfl | hmem
      · exact float32_mono_step N s e.2 h
      · exact ih (cycleStep N s e.2).1 (float32_mono_step N s e.2 h) p hmem
    · simp [runLoop, he] at hp

/-- Once false, `surround_capable` stays false along any run. -/
theorem surround_mono_run (N : Nat) (tr : List (Bool × CycleEnv)) :
    ∀ s : LoopState, s.surround_capable = false →
      ∀ p ∈ (runLoop N s tr).2, (p.1).surround_capable = false := by
  induction tr with
  | nil => intro s h p hp; simp [runLoop] at hp
  | cons e tr ih =>
    intro s h p hp
    by_cases he : e.1 = true
    · simp only [runLoop, he, if_true] at hp
      rcases List.mem_cons.mp hp with rfl | hmem
      · exact surround_mono_step N s e.2 h
      · exact ih (cycleStep N s e.2).1 (surround_mono_step N s e.2 h) p hmem
    · simp [runLoop, he] at hp

/-- One iteration keeps `numBuffersQueued` within the ring size, given that the
device reports no more processed buffers than are queued. -/
theorem queued_bound_step (N : Nat) (s : LoopState) (env : CycleEnv)
    (hq : s.numBuffersQueued ≤ N) (hp : env.numBuffersProcessed ≤ s.numBuffersQueued) :
    (cycleStep N s env).1.numBuffersQueued ≤ N := by
  by_cases hw : N = s.numBuffersQueued ∧ env.numBuffersProcessed = 0
  · rw [cycleStep_wait N s env hw]; simpa [waitResult]
  · by_cases hm : (drainedOf s env).length ≤ minSamplesFor s.surround_capable
    · rw [cycleStep_skip N s env hw hm]; simp [skipResult]; omega
    · rw [cycleStep_submit N s env hw hm]; simp [submitResult]; omega

/-- The ring bound holds at every state of a run. -/
theorem queued_bound_run (N : Nat) (tr : List (Bool × CycleEnv)) :
    ∀ s : LoopState, s.numBuffersQueued ≤ N → deviceOK N s tr = true →
      ∀ p ∈ (runLoop N s tr).2, (p.1).numBuffersQueued ≤ N := by
  induction tr with
  | nil => intro s h hdev p hp; simp [runLoop] at hp
  | cons e tr ih =>
    intro s h hdev p hp
    by_cases he : e.1 = true
    · simp only [runLoop, he, if_true] at hp
      simp only [deviceOK, he, if_true, Bool.and_eq_true, decide_eq_true_eq] at hdev
      rcases List.mem_cons.mp hp with rfl | hmem
      · exact queued_bound_step N s e.2 h hdev.1
      · exact ih (cycleStep N s e.2).1 (queued_bound_step N s e.2 h hdev.1) hdev.2 p hmem
    · simp [runLoop, he] at hp

/-- Whenever an iteration reports a written format, it is the one chosen by the
capability flags at entry. -/
theorem format_of_flags (N : Nat) (s : LoopState) (env : CycleEnv) (fmt : ALFormat)
    (h : (cycleStep N s env).2.format = some fmt) :
    fmt = chosenFormat s.surround_capable s.float32_capable := by
  by_cases hw : N = s.numBuffersQueued ∧ env.numBuffersProcessed = 0
  · rw [cycleStep_wait N s env hw] at h
    simp [waitResult] at h
  · by_cases hm : (drainedOf s env).length ≤ minSamplesFor s.surround_capable
    · rw [cycleStep_skip N s env hw hm] at h
      simp [skipResult] at h
    · rw [cycleStep_submit N s env hw hm] at h
      simp [submitResult] at h
      exact h.symm

/-- The drain of the `c3s`/`c3env` cycle returns exactly 240 frames. -/
theorem c3_drained : drainedOf c3s c3env = List.replicate 240 ((0 : ℚ), (0 : ℚ)) := by
  have her : effectiveRate c3env = 1 := by norm_num [effectiveRate, c3env]
  have hp : (stPut c3s c3env).pending = List.replicate 240 ((0 : ℚ), (0 : ℚ)) := by
    simp only [stPut, destOf, c3env, c3s, List.map_nil, List.append_nil]
  unfold drainedOf stTempo
  rw [her, tempoStep_mid _ _ (by norm_num) (by norm_num)]
  show applyTempo 1 (stPut c3s c3env).pending = _
  rw [hp, applyTempo_one]


/-! ## The claims -/

/-- C1, counterexample.  The claim says a format-rejected cycle does not queue
its slot to the device; in the code `alSourceQueueBuffers` (line 354) runs
unconditionally after the rejected write: at a concrete stereo-float32 cycle
whose write is rejected, the capability flag is cleared and yet the slot is
queued. -/
theorem C1_cex :
    (cycleStep 2 c1s c1env).2.format = some ALFormat.stereo32 ∧
    c1env.writeRejected ALFormat.stereo32 = true ∧
    (cycleStep 2 c1s c1env).1.float32_capable = false ∧
    (cycleStep 2 c1s c1env).2.queued = true := by
  norm_num [c1s, c1env, cycleStep, waitResult, skipResult, submitResult, destOf, stPut,
    stTempo, tempoStep, drainedOf, callsOf, stFinal, effectiveRate, applyTempo,
    shortToFloat, minSamplesFor, chosenFormat, List.range_succ, List.getD]

/-- C1, amended.  When a checked buffer-data submission is rejected with the
format-unsupported condition, the corresponding capability flag is cleared for
the rest of the session, the samples of that cycle are dropped (nothing is
retained for resubmission), the loop continues and any buffer encoded on a
following cycle uses a strictly lower-fidelity format — but the ring slot is
still queued to the device in the same cycle. -/
theorem C1_downgrade_still_queued (N : Nat) (s : LoopState) (env : CycleEnv)
    (fmt : ALFormat)
    (hfmt : (cycleStep N s env).2.format = some fmt)
    (hchk : (cycleStep N s env).2.writeChecked = true)
    (hrej : env.writeRejected fmt = true) :
    (cycleStep N s env).2.queued = true ∧
    (cycleStep N s env).1.st.pending = [] ∧
    (fmt = ALFormat.stereo32 → (cycleStep N s env).1.float32_capable = false) ∧
    ((fmt = ALFormat.surround32 ∨ fmt = ALFormat.surround16) →
      (cycleStep N s env).1.surround_capable = false) ∧
    (∀ env2 : CycleEnv, ∀ fmt2 : ALFormat,
      (cycleStep N (cycleStep N s env).1 env2).2.format = some fmt2 →
      fidelity fmt2 < fidelity fmt) := by
  by_cases hw : N = s.numBuffersQueued ∧ env.numBuffersProcessed = 0
  · rw [cycleStep_wait N s env hw] at hfmt
    simp [waitResult] at hfmt
  by_cases hm : (drainedOf s env).length ≤ minSamplesFor s.surround_capable
  · rw [cycleStep_skip N s env hw hm] at hfmt
    simp [skipResult] at hfmt
  have hcf : fmt = chosenFormat s.surround_capable s.float32_capable :=
    format_of_flags N s env fmt hfmt
  rw [cycleStep_submit N s env hw hm] at hchk ⊢
  rcases hsur : s.surround_capable <;> rcases hfl : s.float32_capable
  · -- surround false, float32 false: the write is never checked, so hchk is absurd
    rw [submitResult] at hchk
    simp [hsur, hfl] at hchk
  · -- surround false, float32 true: a rejected stereo float32 write
    have hfmt2 : fmt = ALFormat.stereo32 := by rw [hcf, hsur, hfl]; rfl
    subst hfmt2
    refine ⟨rfl, rfl, fun _ => ?_, by simp, ?_⟩
    · rw [submitResult]
      simp [hsur, hfl, chosenFormat, hrej]
    · intro env2 fmt2 h2
      rw [format_of_flags N _ env2 fmt2 h2, submitResult]
      simp [hsur, hfl, chosenFormat, fidelity, hrej]
  · -- surround true, float32 false: a rejected surround int16 write
    have hfmt2 : fmt = ALFormat.surround16 := by rw [hcf, hsur, hfl]; rfl
    subst hfmt2
    refine ⟨rfl, rfl, by simp, fun _ => ?_, ?_⟩
    · rw [submitResult]
      simp [hsur, hfl, chosenFormat, hrej]
    · intro env2 fmt2 h2
      rw [format_of_flags N _ env2 fmt2 h2, submitResult]
      simp [hsur, hfl, chosenFormat, fidelity, hrej]
  · -- surround true, float32 true: a rejected surround float32 write
    have hfmt2 : fmt = ALFormat.surround32 := by rw [hcf, hsur, hfl]; rfl
    subst hfmt2
    refine ⟨rfl, rfl, by simp, fun _ => ?_, ?_⟩
    · rw [submitResult]
      simp [hsur, hfl, chosenFormat, hrej]
    · intro env2 fmt2 h2
      rw [format_of_flags N _ env2 fmt2 h2, submitResult]
      simp [hsur, hfl, chosenFormat, fidelity, hrej]

/-- C1, witness: the amended theorem applied to the concrete rejected
stereo-float32 cycle `c1s`/`c1env`. -/
theorem C1_wit :
    (cycleStep 2 c1s c1env).2.queued = true ∧
    (cycleStep 2 c1s c1env).1.st.pending = [] ∧
    (ALFormat.stereo32 = ALFormat.stereo32 →
      (cycleStep 2 c1s c1env).1.float32_capable = false) ∧
    ((ALFormat.stereo32 = ALFormat.surround32 ∨ ALFormat.stereo32 = ALFormat.surround16) →
      (cycleStep 2 c1s c1env).1.surround_capable = false) ∧
    (∀ env2 : CycleEnv, ∀ fmt2 : ALFormat,
      (cycleStep 2 (cycleStep 2 c1s c1env).1 env2).2.format = some fmt2 →
      fidelity fmt2 < fidelity ALFormat.stereo32) :=
  C1_downgrade_still_queued 2 c1s c1env ALFormat.stereo32
    (by norm_num [c1s, c1env, cycleStep, waitResult, skipResult, submitResult, destOf,
      stPut, stTempo, tempoStep, drainedOf, callsOf, stFinal, effectiveRate, applyTempo,
      shortToFloat, minSamplesFor, chosenFormat, List.range_succ, List.getD])
    (by norm_num [c1s, c1env, cycleStep, waitResult, skipResult, submitResult, destOf,
      stPut, stTempo, tempoStep, drainedOf, callsOf, stFinal, effectiveRate, applyTempo,
      shortToFloat, minSamplesFor, chosenFormat, List.range_succ, List.getD])
    (by decide)

/-- C2, counterexample.  The claim says every cycle whose tempo reading is at
or below 0.10 outputs bit-for-bit its ingested samples.  After a previous
cycle applied tempo 2, a cycle reading 1/20 still drains through the engine at
tempo 2, so its output differs from the four frames it ingested. -/
theorem C2_cex :
    effectiveRate c2envB ≤ 1 / 10 ∧
    (cycleStep 4 (cycleStep 4 c2s c2envA).1 c2envB).2.drained ≠
      (cycleStep 4 (cycleStep 4 c2s c2envA).1 c2envB).2.ingested := by
  constructor
  · norm_num [effectiveRate, c2envB]
  · norm_num [c2s, c2envA, c2envB, cycleStep, waitResult, skipResult, submitResult,
      destOf, stPut, stTempo, tempoStep, drainedOf, callsOf, stFinal, effectiveRate,
      applyTempo, shortToFloat, minSamplesFor, chosenFormat, List.range_succ,
      List.getD]
    simp

/-- C2, amended.  For a tempo reading at or below 0.10 (including a reading
that stayed at or below 0 after the one re-query), the cycle issues no
`setTempo` and no `clear` to the time-stretch engine and the engine tempo is
unchanged; the output is bit-for-bit the ingested samples in the case that the
engine is still at tempo 1 with no pending frames — not in general, because
the engine keeps stretching at its previously applied tempo. -/
theorem C2_low_rate_no_stretch (N : Nat) (s : LoopState) (env : CycleEnv)
    (hw : ¬(N = s.numBuffersQueued ∧ env.numBuffersProcessed = 0))
    (hr : effectiveRate env ≤ 1 / 10) :
    (cycleStep N s env).1.st.tempo = s.st.tempo ∧
    (∀ r : ℚ, EngineCall.setTempo r ∉ (cycleStep N s env).2.engineCalls) ∧
    EngineCall.clear ∉ (cycleStep N s env).2.engineCalls ∧
    (s.st.tempo = 1 → s.st.pending = [] →
      (cycleStep N s env).2.drained = (cycleStep N s env).2.ingested) := by
  obtain ⟨hst, hcalls, hdr, hin⟩ := cycleStep_nowait N s env hw
  have hts : stTempo s env = (stPut s env, []) := stTempo_low s env (not_lt.mpr hr)
  refine ⟨?_, ?_, ?_, ?_⟩
  · rw [hst]
    simp [stFinal, hts, stPut]
  · intro r
    rw [hcalls]
    simp [callsOf, hts]
  · rw [hcalls]
    simp [callsOf, hts]
  · intro h1 h0
    rw [hdr, hin]
    unfold drainedOf
    rw [hts]
    simp [stPut, h1, h0, applyTempo_one]

/-- C2, witness: the amended theorem applied to the concrete low-rate cycle
`c2s`/`c2envB` (reading 1/20, engine at tempo 1 and empty). -/
theorem C2_wit :
    (cycleStep 4 c2s c2envB).1.st.tempo = c2s.st.tempo ∧
    (∀ r : ℚ, EngineCall.setTempo r ∉ (cycleStep 4 c2s c2envB).2.engineCalls) ∧
    EngineCall.clear ∉ (cycleStep 4 c2s c2envB).2.engineCalls ∧
    (c2s.st.tempo = 1 → c2s.st.pending = [] →
      (cycleStep 4 c2s c2envB).2.drained = (cycleStep 4 c2s c2envB).2.ingested) :=
  C2_low_rate_no_stretch 4 c2s c2envB (by decide) (by norm_num [effectiveRate, c2envB])

/-- C3, counterexample.  The claim says a cycle is skipped exactly when the
drained count is strictly below the minimum threshold (240 in surround mode).
At a surround cycle draining exactly 240 frames — not below the threshold —
the code still skips: `nSamples <= minSamples` (line 288) uses at-or-below. -/
theorem C3_cex :
    (cycleStep 2 c3s c3env).2.drained.length = 240 ∧
    ¬((cycleStep 2 c3s c3env).2.drained.length < minSamplesFor c3s.surround_capable) ∧
    (cycleStep 2 c3s c3env).2.queued = false ∧
    (cycleStep 2 c3s c3env).2.format = none := by
  have hw : ¬(2 = c3s.numBuffersQueued ∧ c3env.numBuffersProcessed = 0) := by decide
  have hm : (drainedOf c3s c3env).length ≤ minSamplesFor c3s.surround_capable := by
    rw [c3_drained, List.length_replicate]
    exact le_refl 240
  have hlen : (cycleStep 2 c3s c3env).2.drained.length = 240 := by
    rw [cycleStep_skip 2 c3s c3env hw hm]
    show (drainedOf c3s c3env).length = 240
    rw [c3_drained, List.length_replicate]
  refine ⟨hlen, ?_, ?_, ?_⟩
  · rw [hlen]
    show ¬(240 < 240)
    omega
  · rw [cycleStep_skip 2 c3s c3env hw hm]
    rfl
  · rw [cycleStep_skip 2 c3s c3env hw hm]
    rfl

/-- C3, amended.  A non-waiting cycle skips encoding and queuing if and only
if the drained sample count is at or below the minimum threshold of the active
mode (240 in surround mode, 0 in stereo mode); the count must strictly exceed
the threshold for the cycle to encode and submit a buffer. -/
theorem C3_skip_iff (N : Nat) (s : LoopState) (env : CycleEnv)
    (hw : ¬(N = s.numBuffersQueued ∧ env.numBuffersProcessed = 0)) :
    ((cycleStep N s env).2.queued = false ↔
      (cycleStep N s env).2.drained.length ≤ minSamplesFor s.surround_capable) ∧
    ((cycleStep N s env).2.format.isSome = (cycleStep N s env).2.queued) ∧
    minSamplesFor true = 240 ∧ minSamplesFor false = 0 := by
  refine ⟨?_, ?_, rfl, rfl⟩ <;>
  · by_cases hm : (drainedOf s env).length ≤ minSamplesFor s.surround_capable
    · rw [cycleStep_skip N s env hw hm]
      simp [skipResult, hm]
    · rw [cycleStep_submit N s env hw hm]
      simp [submitResult, hm]

/-- C3, witness: the amended theorem applied to the concrete 240-frame
surround cycle `c3s`/`c3env`. -/
theorem C3_wit :
    ((cycleStep 2 c3s c3env).2.queued = false ↔
      (cycleStep 2 c3s c3env).2.drained.length ≤ minSamplesFor c3s.surround_capable) ∧
    ((cycleStep 2 c3s c3env).2.format.isSome = (cycleStep 2 c3s c3env).2.queued) ∧
    minSamplesFor true = 240 ∧ minSamplesFor false = 0 :=
  C3_skip_iff 2 c3s c3env (by decide)

/-- C4.  In every non-waiting cycle whose effective tempo reading exceeds 10,
the engine history is cleared immediately after the tempo is applied: the
calls into the engine are exactly putSamples, setTempo, clear, receiveSamples,
with `clear` directly following `setTempo`. -/
theorem C4_clear_after_setTempo (N : Nat) (s : LoopState) (env : CycleEnv)
    (hw : ¬(N = s.numBuffersQueued ∧ env.numBuffersProcessed = 0))
    (hr : 10 < effectiveRate env) :
    (cycleStep N s env).2.engineCalls =
      [EngineCall.putSamples env.mixedFrames.length,
       EngineCall.setTempo (effectiveRate env), EngineCall.clear,
       EngineCall.receiveSamples (cycleStep N s env).2.drained.length] := by
  obtain ⟨-, hcalls, hdr, -⟩ := cycleStep_nowait N s env hw
  rw [hcalls, hdr, callsOf]
  unfold stTempo
  rw [tempoStep_high _ _ hr]
  simp [destOf]

/-- C4, witness: the theorem applied to the concrete reading-12 cycle
`c4s`/`c4env`. -/
theorem C4_wit :
    (cycleStep 2 c4s c4env).2.engineCalls =
      [EngineCall.putSamples c4env.mixedFrames.length,
       EngineCall.setTempo (effectiveRate c4env), EngineCall.clear,
       EngineCall.receiveSamples (cycleStep 2 c4s c4env).2.drained.length] :=
  C4_clear_after_setTempo 2 c4s c4env (by decide) (by norm_num [effectiveRate, c4env])

/-- C5.  Capability downgrade is monotonic within a session: from any loop
state in which `float32_capable` (resp. `surround_capable`) is false, it is
false after every subsequent executed cycle of any run. -/
theorem C5_capability_monotone (N : Nat) (s : LoopState) (tr : List (Bool × CycleEnv)) :
    (s.float32_capable = false →
      ∀ p ∈ (runLoop N s tr).2, (p.1).float32_capable = false) ∧
    (s.surround_capable = false →
      ∀ p ∈ (runLoop N s tr).2, (p.1).surround_capable = false) :=
  ⟨fun h => float32_mono_run N tr s h, fun h => surround_mono_run N tr s h⟩

/-- C6.  For every configured depth N ≥ 2, along any run in which the device
never reports more processed buffers than are queued, the queued count never
exceeds N; and a cycle queues a new slot only when the count was below N or at
least one processed slot was reclaimed that iteration. -/
theorem C6_ring_bound (N : Nat) (hN : 2 ≤ N) (s : LoopState)
    (hs : s.numBuffersQueued ≤ N) (tr : List (Bool × CycleEnv))
    (hdev : deviceOK N s tr = true) :
    (∀ p ∈ (runLoop N s tr).2, (p.1).numBuffersQueued ≤ N) ∧
    (∀ s2 : LoopState, ∀ env : CycleEnv, s2.numBuffersQueued ≤ N →
      (cycleStep N s2 env).2.queued = true →
      s2.numBuffersQueued < N ∨ 0 < env.numBuffersProcessed) := by
  constructor
  · exact queued_bound_run N tr s hs hdev
  · intro s2 env h2 hqd
    by_cases hw : N = s2.numBuffersQueued ∧ env.numBuffersProcessed = 0
    · rw [cycleStep_wait N s2 env hw] at hqd; simp [waitResult] at hqd
    · omega

/-- C6, witness: the theorem applied to a concrete depth-2 run of one cycle
from an empty ring. -/
theorem C6_wit :
    (∀ p ∈ (runLoop 2 c6s [(true, c6env)]).2, (p.1).numBuffersQueued ≤ 2) ∧
    (∀ s2 : LoopState, ∀ env : CycleEnv, s2.numBuffersQueued ≤ 2 →
      (cycleStep 2 s2 env).2.queued = true →
      s2.numBuffersQueued < 2 ∨ 0 < env.numBuffersProcessed) :=
  C6_ring_bound 2 (by norm_num) c6s (by decide) [(true, c6env)]
    (by simp [deviceOK, c6s, c6env])

/-- C7.  After every queue of a buffer slot the loop issues the
playback-resume call if and only if the device reports a non-playing source
state at that point; a cycle that queues nothing never resumes. -/
theorem C7_resume_iff_not_playing (N : Nat) (s : LoopState) (env : CycleEnv) :
    ((cycleStep N s env).2.queued = true →
      ((cycleStep N s env).2.resumed = true ↔ env.sourceState ≠ SourceState.playing)) ∧
    ((cycleStep N s env).2.queued = false → (cycleStep N s env).2.resumed = false) := by
  by_cases hw : N = s.numBuffersQueued ∧ env.numBuffersProcessed = 0
  · rw [cycleStep_wait N s env hw]
    simp [waitResult]
  · by_cases hm : (drainedOf s env).length ≤ minSamplesFor s.surround_capable
    · rw [cycleStep_skip N s env hw hm]
      simp [skipResult]
    · rw [cycleStep_submit N s env hw hm]
      simp [submitResult]

/-- C8.  The loop waits on the wake signal exactly when all N buffers are
queued and the device reports zero processed buffers; a waiting iteration does
nothing else — the state is unchanged, no engine call, no queue, no resume —
so the run flag is re-read before any further work; and once the run-flag
check reads false the loop exits immediately, executing no further cycle. -/
theorem C8_wait_exit (N : Nat) (s : LoopState) (env : CycleEnv)
    (tr : List (Bool × CycleEnv)) :
    ((cycleStep N s env).2.waited = true ↔
      (s.numBuffersQueued = N ∧ env.numBuffersProcessed = 0)) ∧
    ((cycleStep N s env).2.waited = true →
      (cycleStep N s env).1 = s ∧ (cycleStep N s env).2.engineCalls = [] ∧
      (cycleStep N s env).2.queued = false ∧ (cycleStep N s env).2.resumed = false) ∧
    runLoop N s ((false, env) :: tr) = (s, []) := by
  refine ⟨?_, ?_, by simp [runLoop]⟩ <;>
  · by_cases hw : N = s.numBuffersQueued ∧ env.numBuffersProcessed = 0
    · rw [cycleStep_wait N s env hw]
      simp [waitResult] <;> omega
    · by_cases hm : (drainedOf s env).length ≤ minSamplesFor s.surround_capable
      · rw [cycleStep_skip N s env hw hm]
        simp [skipResult] <;> omega
      · rw [cycleStep_submit N s env hw hm]
        simp [submitResult] <;> omega

/-- C9.  Both int16 fallback paths encode by `encodeInt16`, which multiplies
each float sample by 2 to the 15 and truncates toward zero with no clamping;
the full-scale sample 1.0 therefore maps to 32768, which exceeds the largest
16-bit signed value 32767. -/
theorem C9_int16_truncation :
    (∀ x : ℚ, floatToShort x = ratTrunc (x * 2 ^ 15)) ∧
    (∀ (N : Nat) (s : LoopState) (env : CycleEnv),
      (cycleStep N s env).2.format = some ALFormat.stereo16 →
      (cycleStep N s env).2.encoded16 =
        some (encodeInt16 (interleave (cycleStep N s env).2.drained))) ∧
    (∀ (N : Nat) (s : LoopState) (env : CycleEnv),
      (cycleStep N s env).2.format = some ALFormat.surround16 →
      (cycleStep N s env).2.encoded16 = some (encodeInt16 (zeroLFE env.dpl2Out))) ∧
    floatToShort 1 = 32768 ∧ ¬(floatToShort 1 ≤ 32767) := by
  refine ⟨fun x => rfl, ?_, ?_, ?_, ?_⟩
  · intro N s env h
    by_cases hw : N = s.numBuffersQueued ∧ env.numBuffersProcessed = 0
    · rw [cycleStep_wait N s env hw] at h
      simp [waitResult] at h
    by_cases hm : (drainedOf s env).length ≤ minSamplesFor s.surround_capable
    · rw [cycleStep_skip N s env hw hm] at h
      simp [skipResult] at h
    rw [cycleStep_submit N s env hw hm] at h ⊢
    rw [submitResult] at h ⊢
    simp only [Option.some.injEq] at h
    simp [h]
  · intro N s env h
    by_cases hw : N = s.numBuffersQueued ∧ env.numBuffersProcessed = 0
    · rw [cycleStep_wait N s env hw] at h
      simp [waitResult] at h
    by_cases hm : (drainedOf s env).length ≤ minSamplesFor s.surround_capable
    · rw [cycleStep_skip N s env hw hm] at h
      simp [skipResult] at h
    rw [cycleStep_submit N s env hw hm] at h ⊢
    rw [submitResult] at h ⊢
    simp only [Option.some.injEq] at h
    simp [h]
  · norm_num [floatToShort, ratTrunc]
  · norm_num [floatToShort, ratTrunc]

/-- C10.  In a session downgraded to stereo int16, an encoding cycle writes
format stereo16 with no device-error check after the write, the slot is
unconditionally queued, the capability flags stay as they are, and the entire
step is independent of which formats the device would reject — a rejection in
this path can never be detected. -/
theorem C10_stereo16_no_check (N : Nat) (s : LoopState) (env : CycleEnv)
    (hs : s.surround_capable = false) (hf : s.float32_capable = false)
    (henc : (cycleStep N s env).2.format.isSome = true) :
    (cycleStep N s env).2.format = some ALFormat.stereo16 ∧
    (cycleStep N s env).2.writeChecked = false ∧
    (cycleStep N s env).2.queued = true ∧
    (cycleStep N s env).1.surround_capable = false ∧
    (cycleStep N s env).1.float32_capable = false ∧
    (∀ g : ALFormat → Bool,
      cycleStep N s { env with writeRejected := g } = cycleStep N s env) := by
  have hind : ∀ g : ALFormat → Bool,
      cycleStep N s { env with writeRejected := g } = cycleStep N s env := by
    intro g
    unfold cycleStep
    simp only [submitResult, skipResult, waitResult, drainedOf, stTempo, stPut, destOf,
      callsOf, stFinal, effectiveRate, hs, hf, chosenFormat, Bool.false_and,
      Bool.and_false, Bool.false_or, Bool.not_false, Bool.or_false]
  by_cases hw : N = s.numBuffersQueued ∧ env.numBuffersProcessed = 0
  · rw [cycleStep_wait N s env hw] at henc
    simp [waitResult] at henc
  by_cases hm : (drainedOf s env).length ≤ minSamplesFor s.surround_capable
  · rw [cycleStep_skip N s env hw hm] at henc
    simp [skipResult] at henc
  refine ⟨?_, ?_, ?_, ?_, ?_, hind⟩ <;>
  · rw [cycleStep_submit N s env hw hm, submitResult]
    try simp [hs, hf, chosenFormat]

/-- C10, witness: the theorem applied to the concrete downgraded cycle
`c10s`/`c10env`. -/
theorem C10_wit :
    (cycleStep 2 c10s c10env).2.format = some ALFormat.stereo16 ∧
    (cycleStep 2 c10s c10env).2.writeChecked = false ∧
    (cycleStep 2 c10s c10env).2.queued = true ∧
    (cycleStep 2 c10s c10env).1.surround_capable = false ∧
    (cycleStep 2 c10s c10env).1.float32_capable = false ∧
    (∀ g : ALFormat → Bool,
      cycleStep 2 c10s { c10env with writeRejected := g } = cycleStep 2 c10s c10env) :=
  C10_stereo16_no_check 2 c10s c10env rfl rfl
    (by norm_num [c10s, c10env, cycleStep, waitResult, skipResult, submitResult, destOf,
      stPut, stTempo, tempoStep, drainedOf, callsOf, stFinal, effectiveRate, applyTempo,
      shortToFloat, minSamplesFor, chosenFormat, List.range_succ, List.getD])

end OpenALStream
